import Mathlib

/-!
Verification development for the organism-tractability feature pipeline.

Shallow embedding of:
- `db/feature_metadata/feature_metadata_service.py` (FeatureMetadata, catalog load/filter)
- `db/features/pipeline.py` (SOURCE_REGISTRY, FeaturesPipeline)
- `utils/rate_limiter.py` (RateLimiter, retry_with_backoff)
- the source clients' constructors (`utils/ExaClient.py`, `sources/ncbi/client.py`,
  `sources/protocols_io/client.py`)

Machine integers are modelled as `Int`/`Nat`, wall-clock time as `ℚ`, Python
exceptions as explicit `Except` error values, and Python dictionaries as
insertion-ordered association lists.
-/

/-! ## Feature metadata (feature_metadata_service.py) -/

/-- `FeatureMetadata` (pydantic model): the five required string fields plus the
optional source-specific parameters.  Mirrors the class in
`feature_metadata_service.py`. -/
structure FeatureMetadata where
  feature_id : String
  source_id : String
  display_name : String
  category : String
  description : String
  organism_query_type : Option String
  answer_enum : Option (List String)
  query : Option String
  max_products : Option Int
  type : Option String

deriving Repr, DecidableEq

/-- A raw catalog entry as parsed from YAML, before pydantic validation: every
field may be absent. -/
structure RawFeatureEntry where
  feature_id : Option String
  source_id : Option String
  display_name : Option String
  category : Option String
  description : Option String
  organism_query_type : Option String
  answer_enum : Option (List String)
  query : Option String
  max_products : Option Int
  type : Option String

deriving Repr, DecidableEq

/-- `FeatureMetadata.model_validate`: pydantic validation of one raw entry.
The five required fields must be present and `description` has
`min_length=1`; the optional fields default to `None`. -/
def FeatureMetadata.model_validate (r : RawFeatureEntry) : Except String FeatureMetadata :=
  match r.feature_id, r.source_id, r.display_name, r.category, r.description with
  | some fid, some sid, some dn, some cat, some desc =>
      if desc.length ≥ 1 then
        .ok { feature_id := fid
              source_id := sid
              display_name := dn
              category := cat
              description := desc
              organism_query_type := r.organism_query_type
              answer_enum := r.answer_enum
              query := r.query
              max_products := r.max_products
              type := r.type }
      else .error "description: string should have at least 1 character"
  | _, _, _, _, _ => .error "field required"

/-- `FeatureMetadataService.get_all_feature_metadata`: the list comprehension
`[FeatureMetadata.model_validate(f) for f in feature_dicts]` — validates the
entries in order and aborts the whole load at the first validation failure
(no partial list is ever produced). -/
def get_all_feature_metadata : List RawFeatureEntry → Except String (List FeatureMetadata)
  | [] => .ok []
  | r :: rs => do
      let m ← FeatureMetadata.model_validate r
      let l ← get_all_feature_metadata rs
      .ok (m :: l)

/-- `FeatureMetadataService.get_feature_metadata_by_source`: filter the loaded
catalog by `source_id`, preserving declaration order. -/
def get_feature_metadata_by_source (catalog : List FeatureMetadata) (source_id : String) :
    List FeatureMetadata :=
  catalog.filter (fun f => f.source_id == source_id)

/-! ## The fetch orchestrator (pipeline.py) -/

/-- An adapter's raw return value, as the orchestrator discriminates it in
`fetch_features_for_organism`: Python `None`, an object exposing
`model_dump` (a pydantic model, whose dump is a key-value record with values
in `α`), or any other value. -/
inductive AdapterResult (α : Type) where
  | pyNone : AdapterResult α
  | modelObject (dump : List (String × α)) : AdapterResult α
  | otherValue (v : α) : AdapterResult α

deriving Repr, DecidableEq

/-- A `fetched_object` after the orchestrator's normalization: either a plain
key-value record or an arbitrary value passed through unchanged. -/
inductive FetchedObject (α : Type) where
  | record (fields : List (String × α)) : FetchedObject α
  | passthrough (v : α) : FetchedObject α

deriving Repr, DecidableEq

/-- The source-function signature of the `SourceFunction` protocol:
`(organism_id, organism_scientific_name, feature_metadata) -> Any`. -/
def Adapter (α : Type) : Type :=
  Int → String → FeatureMetadata → AdapterResult α

/-- The normalization branch of `fetch_features_for_organism`:
`if result is None: {} / elif hasattr(result, "model_dump"): result.model_dump()
/ else: result`. -/
def normalizeResult {α : Type} : AdapterResult α → FetchedObject α
  | .pyNone => .record []
  | .modelObject dump => .record dump
  | .otherValue v => .passthrough v

/-- One output row as built by `fetch_features_for_organism`. -/
structure FeatureRow (α : Type) where
  organism_id : Int
  feature_id : String
  source_id : String
  fetched_object : FetchedObject α

deriving Repr, DecidableEq

/-- The keys of `SOURCE_REGISTRY` in their Python-dict insertion order
(`pipeline.py` lines 31–48). -/
def SOURCE_REGISTRY_IDS : List String :=
  ["protocols_io", "ncbi", "nih_reporter", "atcc", "exa_answer"]

/-- `SOURCE_REGISTRY` as an insertion-ordered association list; the adapter
functions themselves do network I/O, so they are a parameter. -/
def SOURCE_REGISTRY {α : Type} (adapters : String → Adapter α) : List (String × Adapter α) :=
  SOURCE_REGISTRY_IDS.map (fun sid => (sid, adapters sid))

/-- The pipeline errors raised by `FeaturesPipeline` below the CSV layer:
`ValueError(f"Invalid source IDs: {invalid}. Available sources: {available}")`. -/
inductive PipelineError where
  | invalidSourceIds (invalid : List String) (available : List String)

deriving Repr, DecidableEq

/-- Python-dict insertion: overwriting an existing key keeps its position,
a new key is appended. -/
def dictInsert {β : Type} (d : List (String × β)) (k : String) (v : β) : List (String × β) :=
  if (d.lookup k).isSome then
    d.map (fun p => if p.1 == k then (k, v) else p)
  else d ++ [(k, v)]

/-- A Python dict comprehension over a list of key-value pairs (first
occurrence fixes the position, last occurrence fixes the value). -/
def dictOfPairs {β : Type} (pairs : List (String × β)) : List (String × β) :=
  pairs.foldl (fun d p => dictInsert d p.1 p.2) []

/-- `FeaturesPipeline._get_sources_to_process`: `None` means the whole
registry; otherwise validate every requested id against the registry
(collecting the invalid ones) and build
`{source_id: SOURCE_REGISTRY[source_id] for source_id in source_ids}`. -/
def get_sources_to_process {α : Type} (registry : List (String × Adapter α))
    (source_ids : Option (List String)) : Except PipelineError (List (String × Adapter α)) :=
  match source_ids with
  | none => .ok registry
  | some ids =>
      let invalid := ids.filter (fun sid => (registry.lookup sid).isNone)
      if invalid.isEmpty then
        .ok (dictOfPairs (ids.filterMap (fun sid => (registry.lookup sid).map (fun f => (sid, f)))))
      else
        .error (.invalidSourceIds invalid (registry.map (fun p => p.1)))

/-- `FeaturesPipeline.fetch_features_for_organism`: select the sources, then
for each source (in the selected dict's order) and each of its catalog
entries (in declaration order) invoke the adapter, normalize the result and
append one row. -/
def fetch_features_for_organism {α : Type} (registry : List (String × Adapter α))
    (catalog : List FeatureMetadata) (organism_id : Int) (organism_scientific_name : String)
    (source_ids : Option (List String)) : Except PipelineError (List (FeatureRow α)) := do
  let sources_to_process ← get_sources_to_process registry source_ids
  .ok (sources_to_process.flatMap (fun sf =>
    (get_feature_metadata_by_source catalog sf.1).map (fun feature_metadata =>
      { organism_id := organism_id
        feature_id := feature_metadata.feature_id
        source_id := feature_metadata.source_id
        fetched_object :=
          normalizeResult (sf.2 organism_id organism_scientific_name feature_metadata) })))

/-- The source ids iterated by the `for source_id, config in
sources_to_process.items()` loop (empty when source validation raised). -/
def fetch_processed_sources {α : Type} (registry : List (String × Adapter α))
    (source_ids : Option (List String)) : List String :=
  match get_sources_to_process registry source_ids with
  | .error _ => []
  | .ok sources => sources.map (fun p => p.1)

/-- The (source_id, feature_id) adapter invocations performed by
`fetch_features_for_organism`, in order (empty when source validation
raised, since the error is raised before the loop body runs). -/
def fetch_adapter_invocations {α : Type} (registry : List (String × Adapter α))
    (catalog : List FeatureMetadata) (source_ids : Option (List String)) :
    List (String × String) :=
  match get_sources_to_process registry source_ids with
  | .error _ => []
  | .ok sources => sources.flatMap (fun sf =>
      (get_feature_metadata_by_source catalog sf.1).map (fun fm => (sf.1, fm.feature_id)))

/-! ## Rate limiter (utils/rate_limiter.py)

`time.time` / `time.sleep` are modelled as an explicit clock: `wait()` is a
function of the limiter's `_last_call` state and the current clock reading
`now`; `time.sleep(w)` advances the clock by exactly `w`, so the second
`time.time()` call inside `wait()` reads `now + w` (and reads `now` again
when no sleep happens).  The returned value is the new `_last_call`, i.e.
the instant at which `wait()` grants the call. -/

/-- `RateLimiter.__init__`: rejects `calls_per_second <= 0`, otherwise stores
`min_interval = 1.0 / calls_per_second` (with `_last_call = 0.0`). -/
def RateLimiter.make (calls_per_second : ℚ) : Except String ℚ :=
  if calls_per_second ≤ 0 then .error "calls_per_second must be positive"
  else .ok (1 / calls_per_second)

/-- One `RateLimiter.wait()` call: `wait_time = min_interval - (now -
_last_call)`; sleep when positive; the new `_last_call` is the clock after
the optional sleep. -/
def RateLimiter.waitStep (min_interval last_call now : ℚ) : ℚ :=
  let wait_time := min_interval - (now - last_call)
  if 0 < wait_time then now + wait_time else now

/-- The grant instants of a sequence of `wait()` calls issued at the given
clock readings, threading `_last_call` through. -/
def RateLimiter.grantTimes (min_interval : ℚ) (last_call : ℚ) : List ℚ → List ℚ
  | [] => []
  | now :: rest =>
      let g := RateLimiter.waitStep min_interval last_call now
      g :: RateLimiter.grantTimes min_interval g rest

/-! ## Retry policy (utils/rate_limiter.py, retry_with_backoff)

`retry_with_backoff` builds a tenacity policy
`retry(stop=stop_after_attempt(max_attempts),
wait=wait_random_exponential(min_wait, max_wait),
retry=retry_if_exception_type(retry_on), reraise=True)`.  The wrapped
operation is modelled as `op : Nat → Except ε α` giving the outcome of the
k-th invocation (1-based); the jittered sleeps do not affect which value is
returned, so they are not part of the functional model.  The result pairs
the final outcome with the number of invocations performed. -/

/-- Python exceptions relevant to the default `retry_on=(RequestException,
HTTPError)` tuple (`HTTPError` is itself a `RequestException`). -/
inductive PyException where
  | requestException : PyException
  | httpError : PyException
  | valueError : PyException
  | runtimeError : PyException

deriving Repr, DecidableEq

/-- `retry_if_exception_type((requests.RequestException, requests.HTTPError))`,
the default retryable set. -/
def default_retry_on : PyException → Bool
  | .requestException => true
  | .httpError => true
  | .valueError => false
  | .runtimeError => false

/-- The tenacity attempt loop: invoke `op` at the current attempt number; a
success returns; a non-retryable failure propagates immediately; a
retryable failure re-raises unchanged (`reraise=True`) once
`stop_after_attempt` is hit (no attempts remain after the current one), and
otherwise sleeps and retries. -/
def retryAux {ε α : Type} (retry_on : ε → Bool) (op : Nat → Except ε α) :
    Nat → Nat → Except ε α × Nat
  | attempt, 0 =>
    match op attempt with
    | .ok a => (.ok a, attempt)
    | .error e => (.error e, attempt)
  | attempt, 1 =>
    match op attempt with
    | .ok a => (.ok a, attempt)
    | .error e => (.error e, attempt)
  | attempt, r + 2 =>
    match op attempt with
    | .ok a => (.ok a, attempt)
    | .error e =>
        if retry_on e then retryAux retry_on op (attempt + 1) (r + 1)
        else (.error e, attempt)

/-- `retry_with_backoff(max_attempts, ..., retry_on)` applied to an
operation: run the attempt loop starting at attempt 1 with `max_attempts`
attempts available. -/
def retry_with_backoff {ε α : Type} (max_attempts : Nat) (retry_on : ε → Bool)
    (op : Nat → Except ε α) : Except ε α × Nat :=
  retryAux retry_on op 1 max_attempts

/-! ## Source client constructors

`ExaClient.__init__`, `NCBIClient.__init__`, `ProtocolsIOClient.__init__`.
`os.environ` is modelled as `env : String → Option String`; Python's
`x or y` on optional strings takes `x` when it is truthy (present and
non-empty) and `y` otherwise. -/

/-- Python truthiness of an optional string: `None` and `""` are falsy. -/
def truthy : Option String → Bool
  | none => false
  | some s => !(s == "")

/-- Python `a or b` on optional strings. -/
def pyOr (a b : Option String) : Option String :=
  if truthy a then a else b

/-- `ExaClient` state: only the api key read from the environment (the
headers dict is derived from it). -/
structure ExaClient where
  api_key : Option String

deriving Repr, DecidableEq

/-- `ExaClient.__init__`: reads `EXA_API_KEY` from the environment and stores
it without any validation — the constructor cannot fail. -/
def ExaClient.init (env : String → Option String) : Except String ExaClient :=
  .ok { api_key := env "EXA_API_KEY" }

/-- Default tool id in `sources/ncbi/client.py`. -/
def NCBI_API_TOOL_ID : String := "organism_tractability"

/-- `NCBIClient` state after a successful construction. -/
structure NCBIClient where
  api_key : String
  api_email : String
  tool_id : String

deriving Repr, DecidableEq

/-- `NCBIClient.__init__`: resolve each argument against the environment with
`or`, then raise `ValueError` when the api key or the api email is missing. -/
def NCBIClient.init (api_key api_email tool_id : Option String)
    (env : String → Option String) : Except String NCBIClient :=
  let key := pyOr api_key (env "NCBI_API_KEY")
  let email := pyOr api_email (env "NCBI_API_EMAIL")
  let tool := pyOr tool_id (some NCBI_API_TOOL_ID)
  if !(truthy key) then .error "NCBI_API_KEY must be provided"
  else if !(truthy email) then .error "NCBI_API_EMAIL must be provided"
  else .ok { api_key := key.getD "", api_email := email.getD "", tool_id := tool.getD "" }

/-- Default base url in `sources/protocols_io/client.py`. -/
def PROTOCOLS_IO_BASE_URL : String := "https://www.protocols.io/api/v3"

/-- `ProtocolsIOClient` state after a successful construction. -/
structure ProtocolsIOClient where
  access_token : String
  base_url : String

deriving Repr, DecidableEq

/-- `ProtocolsIOClient.__init__`: resolve the access token against the
environment, default the base url, raise `ValueError` when the token is
missing. -/
def ProtocolsIOClient.init (access_token base_url : Option String)
    (env : String → Option String) : Except String ProtocolsIOClient :=
  let token := pyOr access_token (env "PROTOCOLS_IO_API_CLIENT_ACCESS_TOKEN")
  let burl := pyOr base_url (some PROTOCOLS_IO_BASE_URL)
  if !(truthy token) then .error "PROTOCOLS_IO_API_CLIENT_ACCESS_TOKEN must be provided"
  else .ok { access_token := token.getD "", base_url := burl.getD "" }

/-- The environment with no variables set. -/
def emptyEnv : String → Option String := fun _ => none

/-! ## CSV batch driver (`FeaturesPipeline.run_csv`)

The parsed input CSV is a header (list of column names) plus data rows
(association lists column ↦ cell, as produced by `csv.DictReader`).  The
output JSON serialization of `fetched_object` is outside the claims, so an
output row is kept as a `FeatureRow`. -/

/-- One parsed CSV data row, as `csv.DictReader` presents it. -/
abbrev CsvRow := List (String × String)

/-- A validated organism record. -/
structure Organism where
  organism_scientific_name : String
  organism_id : Int

deriving Repr, DecidableEq

/-- The errors `run_csv` raises, with the data each `ValueError` message
reports: the missing/found columns, or the 1-based input line number
together with the offending row or value. -/
inductive CsvError where
  | missingColumns (missing : List String) (found : List String)
  | rowMissingField (line : Nat) (row : CsvRow)
  | rowBadId (line : Nat) (got : String)
  | pipelineError (e : PipelineError)

deriving Repr, DecidableEq

/-- `str.strip()`: drop whitespace from both ends. -/
def pyStrip (s : String) : String :=
  String.mk (((s.data.dropWhile Char.isWhitespace).reverse.dropWhile Char.isWhitespace).reverse)

/-- `int(s)` on an already-stripped string: an optional sign followed by at
least one decimal digit (digit-grouping underscores are not modelled). -/
def pyInt? (s : String) : Option Int :=
  let parseDigits : List Char → Option Nat := fun cs =>
    if cs.isEmpty then none
    else if cs.all Char.isDigit then
      some (cs.foldl (fun n c => n * 10 + (c.toNat - 48)) 0)
    else none
  match s.toList with
  | '-' :: rest => (parseDigits rest).map (fun n => -(n : Int))
  | '+' :: rest => (parseDigits rest).map (fun n => (n : Int))
  | cs => (parseDigits cs).map (fun n => (n : Int))

/-- Validation of one data row (`run_csv` lines 93–105): take each cell with
`(row.get(c) or "").strip()`, reject an empty name or id with the row's
1-based input line number, then parse the id with `int(...)`. -/
def validateRow (line : Nat) (row : CsvRow) : Except CsvError Organism :=
  if pyStrip ((row.lookup "organism_scientific_name").getD "") = "" ∨
      pyStrip ((row.lookup "organism_id").getD "") = "" then
    .error (.rowMissingField line row)
  else
    match pyInt? (pyStrip ((row.lookup "organism_id").getD "")) with
    | none => .error (.rowBadId line (pyStrip ((row.lookup "organism_id").getD "")))
    | some oid =>
        .ok { organism_scientific_name := pyStrip ((row.lookup "organism_scientific_name").getD "")
              organism_id := oid }

/-- The row-validation loop of `run_csv`: `enumerate(reader, start=2)` (the
header is line 1), aborting at the first invalid row. -/
def validateOrganisms : Nat → List CsvRow → Except CsvError (List Organism)
  | _, [] => .ok []
  | line, row :: rest => do
      let org ← validateRow line row
      let orgs ← validateOrganisms (line + 1) rest
      .ok (org :: orgs)

/-- The required input columns, in the sorted order the error message uses
(`', '.join(sorted(missing))`). -/
def REQUIRED_CSV_COLUMNS : List String := ["organism_id", "organism_scientific_name"]

/-- `FeaturesPipeline.run_csv` on a parsed input CSV: check the header for
the required columns, validate every data row (building the organism list),
and only then fetch features for each organism in input order. -/
def run_csv {α : Type} (adapters : String → Adapter α) (catalog : List FeatureMetadata)
    (header : List String) (dataRows : List CsvRow) (source_ids : Option (List String)) :
    Except CsvError (List (FeatureRow α)) :=
  if (REQUIRED_CSV_COLUMNS.filter (fun c => !(header.contains c))).isEmpty then do
    let organisms ← validateOrganisms 2 dataRows
    let rowLists ← organisms.mapM (fun org =>
      Except.mapError CsvError.pipelineError
        (fetch_features_for_organism (SOURCE_REGISTRY adapters) catalog org.organism_id
          org.organism_scientific_name source_ids))
    .ok rowLists.flatten
  else
    .error (.missingColumns (REQUIRED_CSV_COLUMNS.filter (fun c => !(header.contains c))) header)

/-- The (organism_id, source_id, feature_id) adapter invocations performed by
`run_csv`, in order: none when header or row validation raises (both happen
before the output file is opened and before any fetch). -/
def run_csv_adapter_invocations {α : Type} (adapters : String → Adapter α)
    (catalog : List FeatureMetadata) (header : List String) (dataRows : List CsvRow)
    (source_ids : Option (List String)) : List (Int × String × String) :=
  if (REQUIRED_CSV_COLUMNS.filter (fun c => !(header.contains c))).isEmpty then
    match validateOrganisms 2 dataRows with
    | .error _ => []
    | .ok organisms => organisms.flatMap (fun org =>
        (fetch_adapter_invocations (SOURCE_REGISTRY adapters) catalog source_ids).map
          (fun p => (org.organism_id, p)))
  else []

/-! ## Derived definitions and concrete material for the claims -/

/-- The rows `fetch_features_for_organism` builds for one processed source:
its catalog entries in declaration order, each normalized. -/
def perSourceRows {α : Type} (adapters : String → Adapter α) (catalog : List FeatureMetadata)
    (oid : Int) (name : String) (sid : String) : List (FeatureRow α) :=
  (get_feature_metadata_by_source catalog sid).map (fun fm =>
    { organism_id := oid
      feature_id := fm.feature_id
      source_id := fm.source_id
      fetched_object := normalizeResult (adapters sid oid name fm) })

deriving instance DecidableEq for Except

/-- A catalog entry with only the required fields populated. -/
def mkMeta (fid sid : String) : FeatureMetadata :=
  { feature_id := fid
    source_id := sid
    display_name := fid
    category := "cat"
    description := "a description"
    organism_query_type := none
    answer_enum := none
    query := none
    max_products := none
    type := none }

/-- A small concrete catalog: one protocols.io feature declared before two
ncbi features. -/
def demoCatalog : List FeatureMetadata :=
  [mkMeta "p1" "protocols_io", mkMeta "n1" "ncbi", mkMeta "n2" "ncbi"]

/-- Adapters that all return Python `None` (absence of data). -/
def demoAdapters : String → Adapter String := fun _ _ _ _ => AdapterResult.pyNone

/-- Modelled from the spec's ordering sentence, for comparison with the code:
the rows C1 predicts — selected sources in source-registration order, and
within each source the catalog entries in declaration order. -/
def registryOrderRows {α : Type} (adapters : String → Adapter α) (catalog : List FeatureMetadata)
    (oid : Int) (name : String) (selected : List String) : List (FeatureRow α) :=
  (SOURCE_REGISTRY_IDS.filter (fun sid => selected.contains sid)).flatMap
    (perSourceRows adapters catalog oid name)

/-- Adapters returning each of the three result shapes, for the C5 witness. -/
def mixedAdapters : String → Adapter String := fun sid _ _ _ =>
  if sid == "ncbi" then AdapterResult.modelObject [("count", "5")]
  else if sid == "protocols_io" then AdapterResult.otherValue "raw"
  else AdapterResult.pyNone

/-- Operation for the C4 witness part (a): two retryable failures then success. -/
def opSucceedsThird : Nat → Except PyException Nat := fun k =>
  if k < 3 then .error .httpError else .ok 42

/-- Operation for the C4 witness part (b): a non-retryable failure. -/
def opValueError : Nat → Except PyException Nat := fun _ => .error .valueError

/-- Operation for the C4 witness part (c): always a retryable failure. -/
def opAlwaysTimeout : Nat → Except PyException Nat := fun _ => .error .requestException

/-- The `_last_call` state after a sequence of `wait()` calls issued at the
given clock readings — i.e. the instant the last call was granted (or the
initial state for no calls). -/
def RateLimiter.runWaits (min_interval : ℚ) (last_call : ℚ) : List ℚ → ℚ
  | [] => last_call
  | now :: rest => RateLimiter.runWaits min_interval (RateLimiter.waitStep min_interval last_call now) rest

/-- A fully-populated valid raw catalog entry. -/
def goodEntry : RawFeatureEntry :=
  { feature_id := some "f1"
    source_id := some "ncbi"
    display_name := some "F1"
    category := some "genome"
    description := some "a description"
    organism_query_type := none
    answer_enum := none
    query := none
    max_products := none
    type := none }

/-- A raw catalog entry with a missing `description`. -/
def badEntry : RawFeatureEntry :=
  { feature_id := some "f2"
    source_id := some "ncbi"
    display_name := some "F2"
    category := some "genome"
    description := none
    organism_query_type := none
    answer_enum := none
    query := none
    max_products := none
    type := none }

/-- A header lacking the required `organism_id` column. -/
def demoHeaderMissing : List String := ["organism_scientific_name"]

/-- A complete input header. -/
def demoHeaderFull : List String := ["organism_scientific_name", "organism_id"]

/-- A well-formed input row. -/
def demoGoodRow : CsvRow :=
  [("organism_scientific_name", "Chlorella vulgaris"), ("organism_id", "3077")]

/-- An input row whose organism_id is not an integer. -/
def demoBadRow : CsvRow :=
  [("organism_scientific_name", "Vulpes vulpes"), ("organism_id", "abc")]

/-! ## Helper lemmas on the registry dict -/

/-- First-occurrence deduplication, the key order of a Python dict built by
inserting the elements of `l` left to right. -/
def dedupKeepFirst (l : List String) : List String :=
  l.foldl (fun acc x => if acc.contains x then acc else acc ++ [x]) []

theorem lookup_mapPair {β : Type} (f : String → β) (k : String) :
    ∀ l : List String,
      (l.map (fun s => (s, f s))).lookup k =
        if l.contains k then some (f k) else none
  | [] => by simp [List.lookup]
  | s :: rest => by
      by_cases h : k = s
      · subst h
        simp [List.lookup]
      · have hbeq : (k == s) = false := beq_false_of_ne h
        simp only [List.map_cons, List.lookup, hbeq, lookup_mapPair f k rest]
        by_cases hm : k ∈ rest
        · simp [hm]
        · simp [hm, h]

theorem dictFold_mapPair {β : Type} (f : String → β) :
    ∀ (l seen : List String),
      (l.map (fun s => (s, f s))).foldl (fun d p => dictInsert d p.1 p.2)
          (seen.map (fun s => (s, f s))) =
        (l.foldl (fun acc x => if acc.contains x then acc else acc ++ [x]) seen).map
          (fun s => (s, f s))
  | [], seen => by simp
  | x :: rest, seen => by
      simp only [List.map_cons, List.foldl_cons]
      cases hc : seen.contains x with
      | true =>
        have hins : dictInsert (seen.map (fun s => (s, f s))) x (f x) =
            seen.map (fun s => (s, f s)) := by
          unfold dictInsert
          rw [lookup_mapPair, hc]
          simp only [if_true, Option.isSome_some, List.map_map]
          apply List.map_congr_left
          intro s _
          by_cases hs : s = x
          · subst hs; simp
          · simp [Function.comp, beq_false_of_ne hs]
        rw [hins, if_pos rfl]
        exact dictFold_mapPair f rest seen
      | false =>
        have hins : dictInsert (seen.map (fun s => (s, f s))) x (f x) =
            (seen ++ [x]).map (fun s => (s, f s)) := by
          unfold dictInsert
          rw [lookup_mapPair, hc]
          simp
        rw [hins]
        simp only [Bool.false_eq_true, if_false]
        exact dictFold_mapPair f rest (seen ++ [x])

theorem dictOfPairs_mapPair {β : Type} (f : String → β) (l : List String) :
    dictOfPairs (l.map (fun s => (s, f s))) = (dedupKeepFirst l).map (fun s => (s, f s)) := by
  have h := dictFold_mapPair f l []
  simpa [dictOfPairs, dedupKeepFirst] using h

theorem SOURCE_REGISTRY_lookup {α : Type} (adapters : String → Adapter α) (k : String) :
    (SOURCE_REGISTRY adapters).lookup k =
      if SOURCE_REGISTRY_IDS.contains k then some (adapters k) else none :=
  lookup_mapPair adapters k SOURCE_REGISTRY_IDS

theorem SOURCE_REGISTRY_map_fst {α : Type} (adapters : String → Adapter α) :
    (SOURCE_REGISTRY adapters).map (fun p => p.1) = SOURCE_REGISTRY_IDS := by
  simp [SOURCE_REGISTRY, List.map_map, Function.comp_def]

/-! ## Closed forms of the orchestrator -/

theorem flatMap_mapPair {β γ : Type} (f : String → β) (g : String × β → List γ) :
    ∀ l : List String, (l.map (fun s => (s, f s))).flatMap g = l.flatMap (fun s => g (s, f s))
  | [] => rfl
  | x :: rest => by
      simp only [List.map_cons, List.flatMap_cons, flatMap_mapPair f g rest]

theorem filterMap_lookup_eq_map {α : Type} (adapters : String → Adapter α) :
    ∀ ids : List String,
      (∀ sid ∈ ids, (SOURCE_REGISTRY adapters).lookup sid = some (adapters sid)) →
      ids.filterMap (fun sid => ((SOURCE_REGISTRY adapters).lookup sid).map (fun f => (sid, f))) =
        ids.map (fun sid => (sid, adapters sid))
  | [], _ => rfl
  | x :: rest, h => by
      have hx := h x (List.mem_cons_self x rest)
      have ih := filterMap_lookup_eq_map adapters rest
        (fun sid hs => h sid (List.mem_cons_of_mem x hs))
      simp [List.filterMap_cons, hx, ih]

theorem get_sources_some_valid {α : Type} (adapters : String → Adapter α) (ids : List String)
    (h : ∀ sid ∈ ids, sid ∈ SOURCE_REGISTRY_IDS) :
    get_sources_to_process (SOURCE_REGISTRY adapters) (some ids) =
      .ok ((dedupKeepFirst ids).map (fun sid => (sid, adapters sid))) := by
  have hlookup : ∀ sid ∈ ids, (SOURCE_REGISTRY adapters).lookup sid = some (adapters sid) := by
    intro sid hs
    rw [SOURCE_REGISTRY_lookup]
    have hc : SOURCE_REGISTRY_IDS.contains sid = true := List.elem_eq_true_of_mem (h sid hs)
    rw [hc, if_pos rfl]
  have hfilter : ids.filter
      (fun sid => ((SOURCE_REGISTRY adapters).lookup sid).isNone) = [] := by
    rw [List.filter_eq_nil_iff]
    intro sid hs
    rw [hlookup sid hs]
    simp
  have hfm := filterMap_lookup_eq_map adapters ids hlookup
  unfold get_sources_to_process
  simp only [hfilter, List.isEmpty_nil, if_true, hfm, dictOfPairs_mapPair]

theorem get_sources_some_invalid {α : Type} (adapters : String → Adapter α) (ids : List String)
    (h : ∃ sid ∈ ids, sid ∉ SOURCE_REGISTRY_IDS) :
    get_sources_to_process (SOURCE_REGISTRY adapters) (some ids) =
      .error (.invalidSourceIds
        (ids.filter (fun sid => !(SOURCE_REGISTRY_IDS.contains sid))) SOURCE_REGISTRY_IDS) := by
  have hfun : ∀ sid, ((SOURCE_REGISTRY adapters).lookup sid).isNone =
      !(SOURCE_REGISTRY_IDS.contains sid) := by
    intro sid
    rw [SOURCE_REGISTRY_lookup]
    cases hc : SOURCE_REGISTRY_IDS.contains sid <;> simp [hc]
  obtain ⟨sid, hmem, hnot⟩ := h
  have hne : ids.filter (fun sid => !(SOURCE_REGISTRY_IDS.contains sid)) ≠ [] := by
    intro hnil
    have := List.filter_eq_nil_iff.mp hnil sid hmem
    simp at this
    exact hnot this
  unfold get_sources_to_process
  simp only [hfun]
  rw [if_neg (by simpa [List.isEmpty_iff] using hne)]
  rw [SOURCE_REGISTRY_map_fst]

theorem fetch_rows_of_sources {α : Type} (registry : List (String × Adapter α))
    (catalog : List FeatureMetadata) (oid : Int) (name : String)
    (source_ids : Option (List String)) (sources : List (String × Adapter α))
    (h : get_sources_to_process registry source_ids = .ok sources) :
    fetch_features_for_organism registry catalog oid name source_ids =
      .ok (sources.flatMap (fun sf =>
        (get_feature_metadata_by_source catalog sf.1).map (fun feature_metadata =>
          { organism_id := oid
            feature_id := feature_metadata.feature_id
            source_id := feature_metadata.source_id
            fetched_object := normalizeResult (sf.2 oid name feature_metadata) }))) := by
  unfold fetch_features_for_organism
  rw [h]
  rfl

theorem fetch_err_of_sources {α : Type} (registry : List (String × Adapter α))
    (catalog : List FeatureMetadata) (oid : Int) (name : String)
    (source_ids : Option (List String)) (e : PipelineError)
    (h : get_sources_to_process registry source_ids = .error e) :
    fetch_features_for_organism registry catalog oid name source_ids = .error e := by
  unfold fetch_features_for_organism
  rw [h]
  rfl

theorem fetch_eq_of_none {α : Type} (adapters : String → Adapter α)
    (catalog : List FeatureMetadata) (oid : Int) (name : String) :
    fetch_features_for_organism (SOURCE_REGISTRY adapters) catalog oid name none =
      .ok (SOURCE_REGISTRY_IDS.flatMap (perSourceRows adapters catalog oid name)) := by
  rw [fetch_rows_of_sources (SOURCE_REGISTRY adapters) catalog oid name none
    (SOURCE_REGISTRY adapters) rfl]
  show Except.ok ((SOURCE_REGISTRY_IDS.map (fun sid => (sid, adapters sid))).flatMap _) = _
  rw [flatMap_mapPair]
  rfl

theorem fetch_eq_of_valid {α : Type} (adapters : String → Adapter α)
    (catalog : List FeatureMetadata) (oid : Int) (name : String) (ids : List String)
    (h : ∀ sid ∈ ids, sid ∈ SOURCE_REGISTRY_IDS) :
    fetch_features_for_organism (SOURCE_REGISTRY adapters) catalog oid name (some ids) =
      .ok ((dedupKeepFirst ids).flatMap (perSourceRows adapters catalog oid name)) := by
  rw [fetch_rows_of_sources (SOURCE_REGISTRY adapters) catalog oid name (some ids)
    ((dedupKeepFirst ids).map (fun sid => (sid, adapters sid)))
    (get_sources_some_valid adapters ids h)]
  rw [flatMap_mapPair]
  rfl

theorem fetch_eq_of_invalid {α : Type} (adapters : String → Adapter α)
    (catalog : List FeatureMetadata) (oid : Int) (name : String) (ids : List String)
    (h : ∃ sid ∈ ids, sid ∉ SOURCE_REGISTRY_IDS) :
    fetch_features_for_organism (SOURCE_REGISTRY adapters) catalog oid name (some ids) =
      .error (.invalidSourceIds
        (ids.filter (fun sid => !(SOURCE_REGISTRY_IDS.contains sid))) SOURCE_REGISTRY_IDS) :=
  fetch_err_of_sources _ _ _ _ _ _ (get_sources_some_invalid adapters ids h)

/-! ## Properties of first-occurrence deduplication -/

theorem dedupFold_mem (a : String) :
    ∀ (l acc : List String),
      (a ∈ l.foldl (fun acc x => if acc.contains x then acc else acc ++ [x]) acc) ↔
        (a ∈ acc ∨ a ∈ l)
  | [], acc => by simp
  | x :: rest, acc => by
      simp only [List.foldl_cons]
      by_cases hx : x ∈ acc
      · have hc : acc.contains x = true := by simpa using hx
        rw [hc, if_pos rfl, dedupFold_mem a rest acc]
        constructor
        · rintro (h | h)
          · exact Or.inl h
          · exact Or.inr (List.mem_cons_of_mem x h)
        · rintro (h | h)
          · exact Or.inl h
          · rcases List.mem_cons.mp h with h' | h'
            · exact Or.inl (h' ▸ hx)
            · exact Or.inr h'
      · have hc : acc.contains x = false := by simpa using hx
        rw [hc]
        simp only [Bool.false_eq_true, if_false]
        rw [dedupFold_mem a rest (acc ++ [x])]
        simp only [List.mem_append, List.mem_singleton, List.mem_cons]
        tauto

theorem dedupFold_nodup :
    ∀ (l acc : List String), acc.Nodup →
      (l.foldl (fun acc x => if acc.contains x then acc else acc ++ [x]) acc).Nodup
  | [], _, h => h
  | x :: rest, acc, h => by
      simp only [List.foldl_cons]
      by_cases hx : x ∈ acc
      · have hc : acc.contains x = true := by simpa using hx
        rw [hc, if_pos rfl]
        exact dedupFold_nodup rest acc h
      · have hc : acc.contains x = false := by simpa using hx
        rw [hc]
        simp only [Bool.false_eq_true, if_false]
        refine dedupFold_nodup rest (acc ++ [x]) ?_
        simp [List.nodup_append, h, hx]

theorem dedupFold_eq_append :
    ∀ (l acc : List String), l.Nodup → (∀ x ∈ l, x ∉ acc) →
      l.foldl (fun acc x => if acc.contains x then acc else acc ++ [x]) acc = acc ++ l
  | [], acc, _, _ => by simp
  | x :: rest, acc, hnd, hdisj => by
      simp only [List.foldl_cons]
      have hx : x ∉ acc := hdisj x (List.mem_cons_self x rest)
      have hc : acc.contains x = false := by simpa using hx
      rw [hc]
      simp only [Bool.false_eq_true, if_false]
      have hrest : ∀ y ∈ rest, y ∉ acc ++ [x] := by
        intro y hy
        simp only [List.mem_append, List.mem_singleton]
        rintro (h | h)
        · exact hdisj y (List.mem_cons_of_mem x hy) h
        · exact (List.nodup_cons.mp hnd).1 (h ▸ hy)
      rw [dedupFold_eq_append rest (acc ++ [x]) (List.nodup_cons.mp hnd).2 hrest]
      simp

theorem mem_dedupKeepFirst (a : String) (l : List String) :
    a ∈ dedupKeepFirst l ↔ a ∈ l := by
  unfold dedupKeepFirst
  rw [dedupFold_mem a l []]
  simp

theorem nodup_dedupKeepFirst (l : List String) : (dedupKeepFirst l).Nodup :=
  dedupFold_nodup l [] List.nodup_nil

theorem dedupKeepFirst_of_nodup (l : List String) (h : l.Nodup) : dedupKeepFirst l = l := by
  unfold dedupKeepFirst
  rw [dedupFold_eq_append l [] h (by simp)]
  simp

theorem dedupKeepFirst_idem (l : List String) :
    dedupKeepFirst (dedupKeepFirst l) = dedupKeepFirst l :=
  dedupKeepFirst_of_nodup _ (nodup_dedupKeepFirst l)

/-! ## Further closed forms used by the claims -/

theorem fetch_processed_of_valid {α : Type} (adapters : String → Adapter α) (ids : List String)
    (h : ∀ sid ∈ ids, sid ∈ SOURCE_REGISTRY_IDS) :
    fetch_processed_sources (SOURCE_REGISTRY adapters) (some ids) = dedupKeepFirst ids := by
  unfold fetch_processed_sources
  rw [get_sources_some_valid adapters ids h]
  simp [List.map_map, Function.comp_def]

theorem fetch_invocations_of_invalid {α : Type} (adapters : String → Adapter α)
    (catalog : List FeatureMetadata) (ids : List String)
    (h : ∃ sid ∈ ids, sid ∉ SOURCE_REGISTRY_IDS) :
    fetch_adapter_invocations (SOURCE_REGISTRY adapters) catalog (some ids) = [] := by
  unfold fetch_adapter_invocations
  rw [get_sources_some_invalid adapters ids h]

theorem mem_perSourceRows_flatMap {α : Type} (adapters : String → Adapter α)
    (catalog : List FeatureMetadata) (oid : Int) (name : String) (L : List String)
    (r : FeatureRow α) (hr : r ∈ L.flatMap (perSourceRows adapters catalog oid name)) :
    ∃ fm ∈ catalog, r =
      { organism_id := oid
        feature_id := fm.feature_id
        source_id := fm.source_id
        fetched_object := normalizeResult (adapters fm.source_id oid name fm) } := by
  rcases List.mem_flatMap.mp hr with ⟨sid, hsid, hrin⟩
  unfold perSourceRows get_feature_metadata_by_source at hrin
  rcases List.mem_map.mp hrin with ⟨fm, hfm, heq⟩
  have hfil := List.mem_filter.mp hfm
  have hsideq : fm.source_id = sid := by simpa using hfil.2
  refine ⟨fm, hfil.1, ?_⟩
  rw [← heq, hsideq]

/-! ## Claim C1 -/

/-- C1 (counterexample): with `source_ids = ["ncbi", "protocols_io"]` the code
returns the ncbi rows before the protocols_io rows — the order of
`source_ids`, not the source-registration order the claim asserts. -/
theorem C1_counterexample :
    fetch_features_for_organism (SOURCE_REGISTRY demoAdapters) demoCatalog 3077
        "Chlorella vulgaris" (some ["ncbi", "protocols_io"]) ≠
      Except.ok (registryOrderRows demoAdapters demoCatalog 3077 "Chlorella vulgaris"
        ["ncbi", "protocols_io"]) := by
  decide

/-- C1 (amended): rows are deterministic and appear grouped by source with the
catalog's declaration order within each source; the source order is the
registry order when `source_ids` is omitted, and the order of first
occurrence in `source_ids` (duplicates collapsed) when it is provided. -/
theorem C1_row_ordering {α : Type} (adapters : String → Adapter α)
    (catalog : List FeatureMetadata) (oid : Int) (name : String) (ids : List String)
    (h : ∀ sid ∈ ids, sid ∈ SOURCE_REGISTRY_IDS) :
    fetch_features_for_organism (SOURCE_REGISTRY adapters) catalog oid name none =
      .ok (SOURCE_REGISTRY_IDS.flatMap (perSourceRows adapters catalog oid name)) ∧
    fetch_features_for_organism (SOURCE_REGISTRY adapters) catalog oid name (some ids) =
      .ok ((dedupKeepFirst ids).flatMap (perSourceRows adapters catalog oid name)) :=
  ⟨fetch_eq_of_none adapters catalog oid name, fetch_eq_of_valid adapters catalog oid name ids h⟩

/-- Witness for C1 at a concrete input. -/
theorem C1_row_ordering_witness :
    (∀ sid ∈ ["ncbi", "protocols_io"], sid ∈ SOURCE_REGISTRY_IDS) ∧
    (fetch_features_for_organism (SOURCE_REGISTRY demoAdapters) demoCatalog 3077
        "Chlorella vulgaris" none =
      .ok (SOURCE_REGISTRY_IDS.flatMap
        (perSourceRows demoAdapters demoCatalog 3077 "Chlorella vulgaris")) ∧
    fetch_features_for_organism (SOURCE_REGISTRY demoAdapters) demoCatalog 3077
        "Chlorella vulgaris" (some ["ncbi", "protocols_io"]) =
      .ok ((dedupKeepFirst ["ncbi", "protocols_io"]).flatMap
        (perSourceRows demoAdapters demoCatalog 3077 "Chlorella vulgaris"))) :=
  ⟨by decide, C1_row_ordering demoAdapters demoCatalog 3077 "Chlorella vulgaris"
    ["ncbi", "protocols_io"] (by decide)⟩

/-! ## Claim C2 -/

/-- C2: for any registered source `s`, fetching with `source_ids = [s]` returns
rows that all carry `source_id = s`, one per catalog entry of `s` (the
adapters are universally quantified, so this holds in particular when every
adapter returns `None`). -/
theorem C2_single_source {α : Type} (adapters : String → Adapter α)
    (catalog : List FeatureMetadata) (oid : Int) (name : String) (s : String)
    (h : s ∈ SOURCE_REGISTRY_IDS) :
    ∃ rows, fetch_features_for_organism (SOURCE_REGISTRY adapters) catalog oid name (some [s]) =
        .ok rows ∧
      rows.length = (get_feature_metadata_by_source catalog s).length ∧
      (∀ r ∈ rows, r.source_id = s) := by
  have hvalid : ∀ sid ∈ [s], sid ∈ SOURCE_REGISTRY_IDS := by
    intro sid hs
    rw [List.mem_singleton.mp hs]
    exact h
  refine ⟨perSourceRows adapters catalog oid name s, ?_, ?_, ?_⟩
  · rw [fetch_eq_of_valid adapters catalog oid name [s] hvalid]
    have hd : dedupKeepFirst [s] = [s] := rfl
    rw [hd]
    simp
  · unfold perSourceRows
    rw [List.length_map]
  · intro r hr
    unfold perSourceRows get_feature_metadata_by_source at hr
    rcases List.mem_map.mp hr with ⟨fm, hfm, heq⟩
    have hs : fm.source_id = s := by simpa using (List.mem_filter.mp hfm).2
    rw [← heq]
    exact hs

/-- Witness for C2 at a concrete input. -/
theorem C2_single_source_witness :
    "ncbi" ∈ SOURCE_REGISTRY_IDS ∧
    (∃ rows, fetch_features_for_organism (SOURCE_REGISTRY demoAdapters) demoCatalog 3077
        "Chlorella vulgaris" (some ["ncbi"]) = .ok rows ∧
      rows.length = (get_feature_metadata_by_source demoCatalog "ncbi").length ∧
      (∀ r ∈ rows, r.source_id = "ncbi")) :=
  ⟨by decide,
   C2_single_source demoAdapters demoCatalog 3077 "Chlorella vulgaris" "ncbi" (by decide)⟩

/-! ## Claim C3 -/

/-- C3: a `source_ids` list containing an unregistered id makes
`fetch_features_for_organism` raise an invalid-argument error whose payload
contains every unknown id and the list of available sources, with no
adapter invoked; an all-registered list raises no such error and exactly
its (distinct) sources are processed. -/
theorem C3_source_id_validation {α : Type} (adapters : String → Adapter α)
    (catalog : List FeatureMetadata) (oid : Int) (name : String) (ids : List String) :
    ((∃ sid ∈ ids, sid ∉ SOURCE_REGISTRY_IDS) →
      fetch_features_for_organism (SOURCE_REGISTRY adapters) catalog oid name (some ids) =
          .error (.invalidSourceIds
            (ids.filter (fun sid => !(SOURCE_REGISTRY_IDS.contains sid))) SOURCE_REGISTRY_IDS) ∧
      (∀ sid ∈ ids, sid ∉ SOURCE_REGISTRY_IDS →
        sid ∈ ids.filter (fun sid => !(SOURCE_REGISTRY_IDS.contains sid))) ∧
      fetch_adapter_invocations (SOURCE_REGISTRY adapters) catalog (some ids) = []) ∧
    ((∀ sid ∈ ids, sid ∈ SOURCE_REGISTRY_IDS) →
      (∃ rows, fetch_features_for_organism (SOURCE_REGISTRY adapters) catalog oid name
          (some ids) = .ok rows) ∧
      (∀ sid, sid ∈ fetch_processed_sources (SOURCE_REGISTRY adapters) (some ids) ↔
        sid ∈ ids)) := by
  constructor
  · intro h
    refine ⟨fetch_eq_of_invalid adapters catalog oid name ids h, ?_,
      fetch_invocations_of_invalid adapters catalog ids h⟩
    intro sid hmem hnot
    rw [List.mem_filter]
    exact ⟨hmem, by simpa using hnot⟩
  · intro h
    refine ⟨⟨_, fetch_eq_of_valid adapters catalog oid name ids h⟩, ?_⟩
    intro sid
    rw [fetch_processed_of_valid adapters ids h, mem_dedupKeepFirst]

/-- Witness for C3 at a concrete input. -/
theorem C3_source_id_validation_witness :
    fetch_features_for_organism (SOURCE_REGISTRY demoAdapters) demoCatalog 3077
        "Chlorella vulgaris" (some ["not_a_real_source"]) =
      .error (.invalidSourceIds ["not_a_real_source"] SOURCE_REGISTRY_IDS) ∧
    fetch_adapter_invocations (SOURCE_REGISTRY demoAdapters) demoCatalog
      (some ["not_a_real_source"]) = [] := by
  have h := (C3_source_id_validation demoAdapters demoCatalog 3077 "Chlorella vulgaris"
    ["not_a_real_source"]).1 (by decide)
  have hf : (["not_a_real_source"].filter
      (fun sid => !(SOURCE_REGISTRY_IDS.contains sid))) = ["not_a_real_source"] := by decide
  refine ⟨?_, h.2.2⟩
  rw [← hf]
  exact h.1

/-! ## Claim C5 -/

/-- C5: every row an ok fetch returns got its `fetched_object` by the
orchestrator's normalization of the adapter's result for that row's catalog
entry: `None` becomes the empty record, an object exposing `model_dump`
becomes its key-value record, and anything else is passed through
unchanged. -/
theorem C5_result_normalization {α : Type} (adapters : String → Adapter α)
    (catalog : List FeatureMetadata) (oid : Int) (name : String)
    (source_ids : Option (List String)) (rows : List (FeatureRow α))
    (h : fetch_features_for_organism (SOURCE_REGISTRY adapters) catalog oid name source_ids =
      .ok rows) :
    ∀ r ∈ rows,
      ∃ fm ∈ catalog,
        r.feature_id = fm.feature_id ∧ r.source_id = fm.source_id ∧
        (adapters fm.source_id oid name fm = .pyNone → r.fetched_object = .record []) ∧
        (∀ d, adapters fm.source_id oid name fm = .modelObject d →
          r.fetched_object = .record d) ∧
        (∀ v, adapters fm.source_id oid name fm = .otherValue v →
          r.fetched_object = .passthrough v) := by
  have hrows : ∃ L : List String, rows = L.flatMap (perSourceRows adapters catalog oid name) := by
    cases source_ids with
    | none =>
        exact ⟨SOURCE_REGISTRY_IDS,
          Except.ok.inj (h.symm.trans (fetch_eq_of_none adapters catalog oid name))⟩
    | some ids =>
        by_cases hval : ∀ sid ∈ ids, sid ∈ SOURCE_REGISTRY_IDS
        · exact ⟨dedupKeepFirst ids,
            Except.ok.inj (h.symm.trans (fetch_eq_of_valid adapters catalog oid name ids hval))⟩
        · push_neg at hval
          have hinv : ∃ sid ∈ ids, sid ∉ SOURCE_REGISTRY_IDS := hval
          rw [fetch_eq_of_invalid adapters catalog oid name ids hinv] at h
          exact absurd h (by simp)
  rcases hrows with ⟨L, rfl⟩
  intro r hr
  rcases mem_perSourceRows_flatMap adapters catalog oid name L r hr with ⟨fm, hfm, hshape⟩
  refine ⟨fm, hfm, by rw [hshape], by rw [hshape], ?_, ?_, ?_⟩
  · intro ha
    rw [hshape]
    simp [ha, normalizeResult]
  · intro d ha
    rw [hshape]
    simp [ha, normalizeResult]
  · intro v ha
    rw [hshape]
    simp [ha, normalizeResult]

/-- Witness for C5 at a concrete input. -/
theorem C5_result_normalization_witness :
    fetch_features_for_organism (SOURCE_REGISTRY mixedAdapters) demoCatalog 1 "x" none =
      .ok (SOURCE_REGISTRY_IDS.flatMap (perSourceRows mixedAdapters demoCatalog 1 "x")) ∧
    (∀ r ∈ SOURCE_REGISTRY_IDS.flatMap (perSourceRows mixedAdapters demoCatalog 1 "x"),
      ∃ fm ∈ demoCatalog,
        r.feature_id = fm.feature_id ∧ r.source_id = fm.source_id ∧
        (mixedAdapters fm.source_id 1 "x" fm = .pyNone → r.fetched_object = .record []) ∧
        (∀ d, mixedAdapters fm.source_id 1 "x" fm = .modelObject d →
          r.fetched_object = .record d) ∧
        (∀ v, mixedAdapters fm.source_id 1 "x" fm = .otherValue v →
          r.fetched_object = .passthrough v)) :=
  ⟨fetch_eq_of_none mixedAdapters demoCatalog 1 "x",
   C5_result_normalization mixedAdapters demoCatalog 1 "x" none _
     (fetch_eq_of_none mixedAdapters demoCatalog 1 "x")⟩

/-! ## Claim C10 -/

/-- C10: an all-registered `source_ids` list is deduplicated — the processed
source list has no duplicates and fetching with the duplicated list equals
fetching with its first-occurrence deduplication — and an empty (but
present) `source_ids` list yields an empty row list with no adapter
invocation and no error. -/
theorem C10_duplicate_and_empty_sources {α : Type} (adapters : String → Adapter α)
    (catalog : List FeatureMetadata) (oid : Int) (name : String) (ids : List String)
    (h : ∀ sid ∈ ids, sid ∈ SOURCE_REGISTRY_IDS) :
    (fetch_processed_sources (SOURCE_REGISTRY adapters) (some ids)).Nodup ∧
    fetch_features_for_organism (SOURCE_REGISTRY adapters) catalog oid name (some ids) =
      fetch_features_for_organism (SOURCE_REGISTRY adapters) catalog oid name
        (some (dedupKeepFirst ids)) ∧
    fetch_features_for_organism (SOURCE_REGISTRY adapters) catalog oid name (some []) =
      .ok ([] : List (FeatureRow α)) ∧
    fetch_adapter_invocations (SOURCE_REGISTRY adapters) catalog (some []) = [] := by
  have hdedup : ∀ sid ∈ dedupKeepFirst ids, sid ∈ SOURCE_REGISTRY_IDS := by
    intro sid hs
    exact h sid ((mem_dedupKeepFirst sid ids).mp hs)
  refine ⟨?_, ?_, rfl, rfl⟩
  · rw [fetch_processed_of_valid adapters ids h]
    exact nodup_dedupKeepFirst ids
  · rw [fetch_eq_of_valid adapters catalog oid name ids h,
      fetch_eq_of_valid adapters catalog oid name (dedupKeepFirst ids) hdedup,
      dedupKeepFirst_idem]

/-- Witness for C10 at a concrete input (a duplicated id). -/
theorem C10_duplicate_and_empty_sources_witness :
    (∀ sid ∈ ["ncbi", "ncbi", "protocols_io"], sid ∈ SOURCE_REGISTRY_IDS) ∧
    ((fetch_processed_sources (SOURCE_REGISTRY demoAdapters)
        (some ["ncbi", "ncbi", "protocols_io"])).Nodup ∧
     fetch_features_for_organism (SOURCE_REGISTRY demoAdapters) demoCatalog 3077
        "Chlorella vulgaris" (some ["ncbi", "ncbi", "protocols_io"]) =
      fetch_features_for_organism (SOURCE_REGISTRY demoAdapters) demoCatalog 3077
        "Chlorella vulgaris" (some (dedupKeepFirst ["ncbi", "ncbi", "protocols_io"])) ∧
     fetch_features_for_organism (SOURCE_REGISTRY demoAdapters) demoCatalog 3077
        "Chlorella vulgaris" (some []) = .ok ([] : List (FeatureRow String)) ∧
     fetch_adapter_invocations (SOURCE_REGISTRY demoAdapters) demoCatalog (some []) = []) :=
  ⟨by decide,
   C10_duplicate_and_empty_sources demoAdapters demoCatalog 3077 "Chlorella vulgaris"
     ["ncbi", "ncbi", "protocols_io"] (by decide)⟩

/-! ## Claim C4: retry policy -/

theorem retryAux_ok {ε α : Type} (retry_on : ε → Bool) (op : Nat → Except ε α) (v : α) :
    ∀ (r attempt : Nat),
      (∀ k, attempt ≤ k → k < attempt + r → ∃ e, op k = .error e ∧ retry_on e = true) →
      op (attempt + r) = .ok v →
      retryAux retry_on op attempt (r + 1) = (.ok v, attempt + r)
  | 0, attempt, _, hok => by
      have hok' : op attempt = .ok v := by simpa using hok
      show retryAux retry_on op attempt 1 = (.ok v, attempt + 0)
      unfold retryAux
      rw [hok']
      rfl
  | r + 1, attempt, herr, hok => by
      obtain ⟨e, he, hre⟩ := herr attempt (Nat.le_refl attempt) (by omega)
      have hok' : op (attempt + 1 + r) = .ok v := by
        rw [show attempt + 1 + r = attempt + (r + 1) by omega]
        exact hok
      have ih := retryAux_ok retry_on op v r (attempt + 1)
        (fun k hk1 hk2 => herr k (Nat.le_of_succ_le hk1) (by omega)) hok'
      show retryAux retry_on op attempt (r + 2) = (.ok v, attempt + (r + 1))
      unfold retryAux
      simp only [he, hre, if_true]
      rw [ih]
      congr 1
      omega

theorem retryAux_nonretryable {ε α : Type} (retry_on : ε → Bool) (op : Nat → Except ε α)
    (e : ε) (attempt remaining : Nat) (he : op attempt = .error e)
    (hnr : retry_on e = false) :
    retryAux retry_on op attempt remaining = (.error e, attempt) := by
  match remaining with
  | 0 =>
      unfold retryAux
      rw [he]
  | 1 =>
      unfold retryAux
      rw [he]
  | r + 2 =>
      unfold retryAux
      simp only [he, hnr]
      simp

theorem retryAux_exhaust {ε α : Type} (retry_on : ε → Bool) (op : Nat → Except ε α)
    (err : Nat → ε) :
    ∀ (r attempt : Nat),
      (∀ k, attempt ≤ k → k ≤ attempt + r → op k = .error (err k) ∧ retry_on (err k) = true) →
      retryAux retry_on op attempt (r + 1) = (.error (err (attempt + r)), attempt + r)
  | 0, attempt, h => by
      obtain ⟨he, hre⟩ := h attempt (Nat.le_refl attempt) (Nat.le_add_right attempt 0)
      show retryAux retry_on op attempt 1 = (.error (err (attempt + 0)), attempt + 0)
      unfold retryAux
      rw [he]
      rfl
  | r + 1, attempt, h => by
      obtain ⟨he, hre⟩ := h attempt (Nat.le_refl attempt) (Nat.le_add_right attempt (r + 1))
      have ih := retryAux_exhaust retry_on op err r (attempt + 1)
        (fun k hk1 hk2 => h k (Nat.le_of_succ_le hk1) (by omega))
      show retryAux retry_on op attempt (r + 2) = (.error (err (attempt + (r + 1))), attempt + (r + 1))
      unfold retryAux
      simp only [he, hre, if_true]
      have harith : attempt + 1 + r = attempt + (r + 1) := by omega
      rw [ih, harith]

/-- C4: the retry policy (a) returns the success value after exactly
`max_attempts` invocations when the first `max_attempts - 1` invocations
fail retryably and the last succeeds, (b) invokes a non-retryably failing
operation exactly once and propagates that failure, and (c) re-raises the
last failure unchanged after exactly `max_attempts` retryable failures. -/
theorem C4_retry_policy {ε α : Type} (retry_on : ε → Bool) :
    (∀ (n : Nat) (op : Nat → Except ε α) (v : α), 1 ≤ n →
      (∀ k, 1 ≤ k → k < n → ∃ e, op k = .error e ∧ retry_on e = true) →
      op n = .ok v →
      retry_with_backoff n retry_on op = (.ok v, n)) ∧
    (∀ (n : Nat) (op : Nat → Except ε α) (e : ε), 1 ≤ n →
      op 1 = .error e → retry_on e = false →
      retry_with_backoff n retry_on op = (.error e, 1)) ∧
    (∀ (n : Nat) (op : Nat → Except ε α) (err : Nat → ε), 1 ≤ n →
      (∀ k, 1 ≤ k → k ≤ n → op k = .error (err k) ∧ retry_on (err k) = true) →
      retry_with_backoff n retry_on op = (.error (err n), n)) := by
  refine ⟨?_, ?_, ?_⟩
  · intro n op v hn herr hok
    obtain ⟨m, hm⟩ := Nat.exists_eq_add_of_le hn
    have hm' : n = m + 1 := by omega
    subst hm'
    unfold retry_with_backoff
    have hok' : op (1 + m) = .ok v := by
      rw [Nat.add_comm 1 m]
      exact hok
    have h := retryAux_ok retry_on op v m 1
      (fun k hk1 hk2 => herr k hk1 (by omega)) hok'
    simpa [Nat.add_comm 1 m] using h
  · intro n op e _ he hnr
    exact retryAux_nonretryable retry_on op e 1 n he hnr
  · intro n op err hn h
    obtain ⟨m, hm⟩ := Nat.exists_eq_add_of_le hn
    have hm' : n = m + 1 := by omega
    subst hm'
    unfold retry_with_backoff
    have hx := retryAux_exhaust retry_on op err m 1
      (fun k hk1 hk2 => h k hk1 (by omega))
    simpa [Nat.add_comm 1 m] using hx

/-- Witness for C4 with `max_attempts = 3` and the default retryable set. -/
theorem C4_retry_policy_witness :
    retry_with_backoff 3 default_retry_on opSucceedsThird = (.ok 42, 3) ∧
    retry_with_backoff 3 default_retry_on opValueError = (.error .valueError, 1) ∧
    retry_with_backoff 3 default_retry_on opAlwaysTimeout = (.error .requestException, 3) := by
  refine ⟨?_, ?_, ?_⟩
  · refine (C4_retry_policy default_retry_on).1 3 opSucceedsThird 42 (by decide) ?_ (by decide)
    intro k hk1 hk2
    exact ⟨.httpError, by simp [opSucceedsThird, if_pos hk2], rfl⟩
  · exact (C4_retry_policy default_retry_on).2.1 3 opValueError .valueError (by decide) rfl rfl
  · refine (C4_retry_policy default_retry_on).2.2 3 opAlwaysTimeout
      (fun _ => .requestException) (by decide) ?_
    intro k _ _
    exact ⟨rfl, rfl⟩

/-! ## Claim C6: rate limiter -/

theorem waitStep_ge (mi last now : ℚ) : last + mi ≤ RateLimiter.waitStep mi last now := by
  unfold RateLimiter.waitStep
  by_cases h : 0 < mi - (now - last)
  · rw [if_pos h]
    linarith
  · rw [if_neg h]
    linarith

theorem waitStep_ge_now (mi last now : ℚ) : now ≤ RateLimiter.waitStep mi last now := by
  unfold RateLimiter.waitStep
  by_cases h : 0 < mi - (now - last)
  · rw [if_pos h]
    linarith
  · rw [if_neg h]

theorem grantTimes_chain (mi : ℚ) :
    ∀ (times : List ℚ) (last : ℚ),
      List.Chain' (fun a b => a + mi ≤ b) (RateLimiter.grantTimes mi last times)
  | [], _ => List.chain'_nil
  | t :: rest, last => by
      rcases rest with _ | ⟨t2, rest'⟩
      · simp [RateLimiter.grantTimes]
      · show List.Chain' _ (RateLimiter.waitStep mi last t ::
          RateLimiter.grantTimes mi (RateLimiter.waitStep mi last t) (t2 :: rest'))
        rw [List.chain'_cons']
        refine ⟨?_, grantTimes_chain mi (t2 :: rest') (RateLimiter.waitStep mi last t)⟩
        intro b hb
        have hhead : (RateLimiter.grantTimes mi (RateLimiter.waitStep mi last t)
            (t2 :: rest')).head? =
            some (RateLimiter.waitStep mi (RateLimiter.waitStep mi last t) t2) := rfl
        rw [hhead] at hb
        have hb' : RateLimiter.waitStep mi (RateLimiter.waitStep mi last t) t2 = b := by
          simpa using hb
        rw [← hb']
        exact waitStep_ge mi (RateLimiter.waitStep mi last t) t2

theorem runWaits_ge (mi : ℚ) :
    ∀ (rest : List ℚ) (last t0 : ℚ),
      RateLimiter.waitStep mi last t0 + rest.length * mi ≤
        RateLimiter.runWaits mi last (t0 :: rest)
  | [], last, t0 => by
      simp [RateLimiter.runWaits]
  | t1 :: rest', last, t0 => by
      have ih := runWaits_ge mi rest' (RateLimiter.waitStep mi last t0) t1
      have hstep := waitStep_ge mi (RateLimiter.waitStep mi last t0) t1
      show RateLimiter.waitStep mi last t0 + (t1 :: rest').length * mi ≤
        RateLimiter.runWaits mi (RateLimiter.waitStep mi last t0) (t1 :: rest')
      have hlen : ((t1 :: rest').length : ℚ) = (rest'.length : ℚ) + 1 := by
        push_cast [List.length_cons]
        ring
      rw [hlen]
      nlinarith [ih, hstep]

/-- C6: constructing a rate limiter with `calls_per_second ≤ 0` fails while a
positive rate yields `min_interval = 1/calls_per_second`; under the explicit
clock model of `time.time`/`time.sleep`, consecutive `wait()` grants are
separated by at least `1/calls_per_second` seconds, and `N` sequential
calls finish at least `(N-1)/calls_per_second` seconds after the first call
was issued. -/
theorem C6_rate_limiter (cps cps' t0 : ℚ) (rest : List ℚ) (h : 0 < cps) (h' : cps' ≤ 0) :
    RateLimiter.make cps' = .error "calls_per_second must be positive" ∧
    RateLimiter.make cps = .ok (1 / cps) ∧
    List.Chain' (fun a b => a + 1 / cps ≤ b)
      (RateLimiter.grantTimes (1 / cps) 0 (t0 :: rest)) ∧
    (rest.length : ℚ) * (1 / cps) ≤ RateLimiter.runWaits (1 / cps) 0 (t0 :: rest) - t0 := by
  refine ⟨?_, ?_, grantTimes_chain (1 / cps) (t0 :: rest) 0, ?_⟩
  · unfold RateLimiter.make
    rw [if_pos h']
  · unfold RateLimiter.make
    rw [if_neg (not_le.mpr h)]
  · have h1 := runWaits_ge (1 / cps) rest 0 t0
    have h2 := waitStep_ge_now (1 / cps) 0 t0
    linarith

/-- Witness for C6 at a concrete input: rate 2/s, three calls all issued at
clock 0, and an invalid rate 0. -/
theorem C6_rate_limiter_witness :
    RateLimiter.make 0 = .error "calls_per_second must be positive" ∧
    RateLimiter.make 2 = .ok (1 / 2) ∧
    List.Chain' (fun a b => a + 1 / 2 ≤ b)
      (RateLimiter.grantTimes (1 / 2) 0 (0 :: [0, 0])) ∧
    ((([0, 0] : List ℚ).length : ℚ) * (1 / 2) ≤
      RateLimiter.runWaits (1 / 2) 0 (0 :: [0, 0]) - 0) := by
  have h := C6_rate_limiter 2 0 0 [0, 0] (by norm_num) (by norm_num)
  simpa using h

/-! ## Claim C7: catalog validation -/

theorem validate_error_of_bad_description (r : RawFeatureEntry)
    (hd : r.description = none ∨ r.description = some "") :
    ∃ e, FeatureMetadata.model_validate r = .error e := by
  obtain ⟨fid, sid, dn, cat, desc, o1, o2, o3, o4, o5⟩ := r
  simp only at hd
  unfold FeatureMetadata.model_validate
  rcases hd with hd | hd <;> subst hd <;>
    rcases fid with _ | fid <;> rcases sid with _ | sid <;>
    rcases dn with _ | dn <;> rcases cat with _ | cat <;> simp

theorem get_all_error_of_mem :
    ∀ (entries : List RawFeatureEntry),
      (∃ r ∈ entries, ∃ e, FeatureMetadata.model_validate r = .error e) →
      ∃ e, get_all_feature_metadata entries = .error e
  | [], h => by simp at h
  | r :: rs, h => by
      cases hv : FeatureMetadata.model_validate r with
      | error e =>
          refine ⟨e, ?_⟩
          rw [show get_all_feature_metadata (r :: rs) = (do
            let m ← FeatureMetadata.model_validate r
            let l ← get_all_feature_metadata rs
            Except.ok (m :: l)) from rfl, hv]
          rfl
      | ok m =>
          rcases h with ⟨r', hr', e', he'⟩
          rcases List.mem_cons.mp hr' with rfl | hmem
          · rw [hv] at he'
            cases he'
          · obtain ⟨e2, h2⟩ := get_all_error_of_mem rs ⟨r', hmem, e', he'⟩
            refine ⟨e2, ?_⟩
            rw [show get_all_feature_metadata (r :: rs) = (do
              let m ← FeatureMetadata.model_validate r
              let l ← get_all_feature_metadata rs
              Except.ok (m :: l)) from rfl, hv, h2]
            rfl

theorem get_all_ok_spec :
    ∀ (entries : List RawFeatureEntry) (l : List FeatureMetadata),
      get_all_feature_metadata entries = .ok l →
      l.length = entries.length ∧
      ∀ r ∈ entries, ∃ m, FeatureMetadata.model_validate r = .ok m
  | [], l, h => by
      simp [get_all_feature_metadata] at h
      subst h
      simp
  | r :: rs, l, h => by
      cases hv : FeatureMetadata.model_validate r with
      | error e =>
          rw [show get_all_feature_metadata (r :: rs) = (do
            let m ← FeatureMetadata.model_validate r
            let l ← get_all_feature_metadata rs
            Except.ok (m :: l)) from rfl, hv] at h
          cases h
      | ok m =>
          rw [show get_all_feature_metadata (r :: rs) = (do
            let m ← FeatureMetadata.model_validate r
            let l ← get_all_feature_metadata rs
            Except.ok (m :: l)) from rfl, hv] at h
          cases hrs : get_all_feature_metadata rs with
          | error e => rw [hrs] at h; cases h
          | ok l' =>
              rw [hrs] at h
              have hl : l = m :: l' := by
                cases h
                rfl
              obtain ⟨hlen, hall⟩ := get_all_ok_spec rs l' hrs
              subst hl
              refine ⟨by simp [hlen], ?_⟩
              intro r2 hr2
              rcases List.mem_cons.mp hr2 with rfl | hmem
              · exact ⟨m, hv⟩
              · exact hall r2 hmem

/-- C7: loading the catalog validates every entry against the
FeatureMetadata schema and fails the entire load if any entry is malformed
(for instance with a missing or empty `description`); an ok load covers
every entry, so no partial catalog is ever returned. -/
theorem C7_catalog_fail_fast (entries : List RawFeatureEntry) :
    ((∃ r ∈ entries, r.description = none ∨ r.description = some "") →
      ∃ e, get_all_feature_metadata entries = .error e) ∧
    (∀ l, get_all_feature_metadata entries = .ok l →
      l.length = entries.length ∧
      ∀ r ∈ entries, ∃ m, FeatureMetadata.model_validate r = .ok m) := by
  constructor
  · intro h
    rcases h with ⟨r, hr, hd⟩
    exact get_all_error_of_mem entries ⟨r, hr, validate_error_of_bad_description r hd⟩
  · intro l h
    exact get_all_ok_spec entries l h

/-- Witness for C7 at a concrete two-entry catalog. -/
theorem C7_catalog_fail_fast_witness :
    (∃ r ∈ [goodEntry, badEntry], r.description = none ∨ r.description = some "") ∧
    (∃ e, get_all_feature_metadata [goodEntry, badEntry] = .error e) :=
  ⟨by decide, (C7_catalog_fail_fast [goodEntry, badEntry]).1 (by decide)⟩

/-! ## Claim C8: client construction -/

/-- C8 (counterexample): `ExaClient.__init__` with no `EXA_API_KEY` set does
not raise — it constructs successfully with a missing key. -/
theorem C8_counterexample :
    ExaClient.init emptyEnv = .ok { api_key := none } := rfl

/-- C8 (amended): `NCBIClient` and `ProtocolsIOClient` raise a configuration
error at construction when their credentials resolve to nothing truthy,
before any network traffic; `ExaClient` performs no such check and always
constructs successfully, storing whatever `EXA_API_KEY` held. -/
theorem C8_client_construction (env : String → Option String) :
    ((truthy (env "NCBI_API_KEY") = false ∨ truthy (env "NCBI_API_EMAIL") = false) →
      ∃ msg, NCBIClient.init none none none env = .error msg) ∧
    (truthy (env "PROTOCOLS_IO_API_CLIENT_ACCESS_TOKEN") = false →
      ∃ msg, ProtocolsIOClient.init none none env = .error msg) ∧
    ExaClient.init env = .ok { api_key := env "EXA_API_KEY" } := by
  have hpyr : ∀ b : Option String, pyOr none b = b := fun _ => rfl
  refine ⟨?_, ?_, rfl⟩
  · intro h
    unfold NCBIClient.init
    simp only [hpyr]
    cases hk : truthy (env "NCBI_API_KEY") with
    | false =>
        refine ⟨"NCBI_API_KEY must be provided", ?_⟩
        rfl
    | true =>
        have he : truthy (env "NCBI_API_EMAIL") = false := by
          rcases h with h | h
          · rw [h] at hk
            cases hk
          · exact h
        refine ⟨"NCBI_API_EMAIL must be provided", ?_⟩
        rw [he]
        rfl
  · intro h
    unfold ProtocolsIOClient.init
    simp only [hpyr]
    refine ⟨"PROTOCOLS_IO_API_CLIENT_ACCESS_TOKEN must be provided", ?_⟩
    rw [h]
    rfl

/-- Witness for C8 with the empty environment. -/
theorem C8_client_construction_witness :
    (∃ msg, NCBIClient.init none none none emptyEnv = .error msg) ∧
    (∃ msg, ProtocolsIOClient.init none none emptyEnv = .error msg) ∧
    ExaClient.init emptyEnv = .ok { api_key := emptyEnv "EXA_API_KEY" } := by
  have h := C8_client_construction emptyEnv
  exact ⟨h.1 (Or.inl rfl), h.2.1 rfl, h.2.2⟩

/-! ## Claim C9: CSV input validation -/

theorem validateOrganisms_error_at :
    ∀ (rows : List CsvRow) (start j : Nat) (row : CsvRow) (e : CsvError),
      rows[j]? = some row →
      (∀ k row', k < j → rows[k]? = some row' →
        ∃ org, validateRow (start + k) row' = .ok org) →
      validateRow (start + j) row = .error e →
      validateOrganisms start rows = .error e
  | [], _, j, row, e, hget, _, _ => by simp at hget
  | r :: rest, start, 0, row, e, hget, _, herr => by
      have hrow : r = row := by simpa using hget
      subst hrow
      rw [Nat.add_zero] at herr
      rw [show validateOrganisms start (r :: rest) = (do
        let org ← validateRow start r
        let orgs ← validateOrganisms (start + 1) rest
        Except.ok (org :: orgs)) from rfl, herr]
      rfl
  | r :: rest, start, j + 1, row, e, hget, hpre, herr => by
      obtain ⟨org0, hok0⟩ := hpre 0 r (Nat.succ_pos j) (by simp)
      rw [Nat.add_zero] at hok0
      have hrec := validateOrganisms_error_at rest (start + 1) j row e
        (by simpa using hget)
        (fun k row' hk hget' => by
          have := hpre (k + 1) row' (by omega) (by simpa using hget')
          rwa [show start + (k + 1) = start + 1 + k by omega] at this)
        (by rwa [show start + (j + 1) = start + 1 + j by omega] at herr)
      rw [show validateOrganisms start (r :: rest) = (do
        let org ← validateRow start r
        let orgs ← validateOrganisms (start + 1) rest
        Except.ok (org :: orgs)) from rfl, hok0, hrec]
      rfl

/-- C9: the batch driver validates the whole organism input before any
adapter invocation — a missing required column yields the missing-columns
error with no adapter invoked; every row-validation error carries the row's
1-based input line number together with the offending row or id value; and
the first invalid row (after a valid prefix) aborts the run with that error
and no adapter invocation. -/
theorem C9_input_validation {α : Type} (adapters : String → Adapter α)
    (catalog : List FeatureMetadata) (header : List String) (dataRows : List CsvRow)
    (source_ids : Option (List String)) :
    ((REQUIRED_CSV_COLUMNS.filter (fun c => !(header.contains c))).isEmpty = false →
      run_csv adapters catalog header dataRows source_ids =
          .error (.missingColumns
            (REQUIRED_CSV_COLUMNS.filter (fun c => !(header.contains c))) header) ∧
      run_csv_adapter_invocations adapters catalog header dataRows source_ids = []) ∧
    (∀ line row e, validateRow line row = .error e →
      e = .rowMissingField line row ∨ ∃ v, e = .rowBadId line v) ∧
    ((REQUIRED_CSV_COLUMNS.filter (fun c => !(header.contains c))).isEmpty = true →
      ∀ j row e, dataRows[j]? = some row →
        (∀ k row', k < j → dataRows[k]? = some row' →
          ∃ org, validateRow (2 + k) row' = .ok org) →
        validateRow (2 + j) row = .error e →
        run_csv adapters catalog header dataRows source_ids = .error e ∧
        run_csv_adapter_invocations adapters catalog header dataRows source_ids = []) := by
  refine ⟨?_, ?_, ?_⟩
  · intro hm
    constructor
    · unfold run_csv
      rw [hm]
      rfl
    · unfold run_csv_adapter_invocations
      rw [hm]
      rfl
  · intro line row e h
    unfold validateRow at h
    split at h
    · left
      cases h
      rfl
    · split at h
      · right
        cases h
        exact ⟨_, rfl⟩
      · cases h
  · intro hm j row e hget hpre herr
    have hval := validateOrganisms_error_at dataRows 2 j row e hget hpre herr
    constructor
    · unfold run_csv
      rw [hm]
      show (do
        let organisms ← validateOrganisms 2 dataRows
        let rowLists ← organisms.mapM (fun org =>
          Except.mapError CsvError.pipelineError
            (fetch_features_for_organism (SOURCE_REGISTRY adapters) catalog org.organism_id
              org.organism_scientific_name source_ids))
        Except.ok rowLists.flatten) = Except.error e
      rw [hval]
      rfl
    · unfold run_csv_adapter_invocations
      rw [hm]
      show (match validateOrganisms 2 dataRows with
        | .error _ => []
        | .ok organisms => organisms.flatMap (fun org =>
            (fetch_adapter_invocations (SOURCE_REGISTRY adapters) catalog source_ids).map
              (fun p => (org.organism_id, p)))) = []
      rw [hval]

/-- Witness for C9: a missing `organism_id` column, and a non-integer id on
input line 3 (the second data row), both abort with no adapter invoked. -/
theorem C9_input_validation_witness :
    (run_csv demoAdapters demoCatalog demoHeaderMissing [demoGoodRow] none =
        .error (.missingColumns ["organism_id"] demoHeaderMissing) ∧
      run_csv_adapter_invocations demoAdapters demoCatalog demoHeaderMissing
        [demoGoodRow] none = []) ∧
    (run_csv demoAdapters demoCatalog demoHeaderFull [demoGoodRow, demoBadRow] none =
        .error (.rowBadId 3 "abc") ∧
      run_csv_adapter_invocations demoAdapters demoCatalog demoHeaderFull
        [demoGoodRow, demoBadRow] none = []) := by
  constructor
  · have h := (C9_input_validation demoAdapters demoCatalog demoHeaderMissing
      [demoGoodRow] none).1 (by decide)
    have hf : (REQUIRED_CSV_COLUMNS.filter (fun c => !(demoHeaderMissing.contains c))) =
        ["organism_id"] := by decide
    rw [← hf]
    exact h
  · refine (C9_input_validation demoAdapters demoCatalog demoHeaderFull
      [demoGoodRow, demoBadRow] none).2.2 (by decide) 1 demoBadRow (.rowBadId 3 "abc")
      (by decide) ?_ (by decide)
    intro k row' hk hget'
    have hk0 : k = 0 := by omega
    subst hk0
    have hrow : demoGoodRow = row' := by simpa using hget'
    subst hrow
    exact ⟨{ organism_scientific_name := "Chlorella vulgaris", organism_id := 3077 }, by decide⟩
